import Mathlib

/-!
Verification of the weighted/debiased Lasso estimators of
`econml/sklearn_extensions/linear_model.py`.

The numerical core of the file (weight validation and normalization, the
nodewise regression assembling `theta_hat`, the error-variance and
coefficient-correction formulas, the alpha-sentinel state machine, the
multi-output attribute gathering) is embedded shallowly over exact rational
arithmetic.  The external collaborators named by the spec (the coordinate
descent Lasso solver, the cross-validated LassoCV solver, the fold splitter,
the square root and the target-type inspector) are passed in as components of
an explicit environment `Ext`, mirroring the spec's "external collaborator"
boundary.
-/

namespace EconML

abbrev Vec := ℕ → ℚ

abbrev Mat := ℕ → ℕ → ℚ

/-- Dot product of the first `m` entries of two vectors (`np.dot`). -/
def dot (m : ℕ) (u v : Vec) : ℚ := ∑ s in Finset.range m, u s * v s

/-- Matrix product with inner dimension `p` (`np.matmul`). -/
def matMul (p : ℕ) (A B : Mat) : Mat := fun i j => ∑ k in Finset.range p, A i k * B k j

/-- `np.diag` of a vector: diagonal matrix. -/
def diagMat (d : Vec) : Mat := fun i j => if i = j then d i else 0

/-- Transpose (`X.T`). -/
def transposeM (A : Mat) : Mat := fun i j => A j i

/-- Sum of the first `m` entries of a weight vector (`np.sum(sample_weight)`). -/
def vsum (m : ℕ) (w : Vec) : ℚ := ∑ s in Finset.range m, w s

/-- `np.average(v, weights=w)`: weighted mean when weights are given, plain
mean otherwise. -/
def wavg (m : ℕ) (w : Option Vec) (v : Vec) : ℚ :=
  match w with
  | some w => (∑ s in Finset.range m, w s * v s) / vsum m w
  | none => (∑ s in Finset.range m, v s) / m

/-- The normalized weights of `_fit_weighted_linear_model`:
`n_samples * sample_weight / np.sum(sample_weight)`. -/
def normW (m : ℕ) (w : Vec) : Vec := fun s => m * w s / vsum m w

/-- `v * sample_weight / np.sum(sample_weight)` when weighted, `v / n_samples`
otherwise; the residual/target scaling shared by `_get_coef_correction` and
`_get_theta_hat`. -/
def scaledVec (m : ℕ) (w : Option Vec) (v : Vec) : Vec :=
  match w with
  | some w => fun s => v s * w s / vsum m w
  | none => fun s => v s / m

/-- A dense numpy array: a shape together with flat rational data.  Scalars
have shape `[]`. -/
structure NpArr where
  shape : List ℕ
  data : List ℚ
deriving DecidableEq

/-- `ndarray.ndim`. -/
def NpArr.ndim (a : NpArr) : ℕ := a.shape.length

/-- `np.atleast_1d`: promotes a scalar to a 1-element 1-D array, leaves other
arrays unchanged. -/
def atleast1d (a : NpArr) : NpArr :=
  if a.ndim = 0 then ⟨[1], a.data⟩ else a

/-- The sample-weight validation of `_fit_weighted_linear_model`: arrays of
rank at least 2 are rejected, scalars are broadcast with `np.repeat`, 1-D
arrays must have one weight per sample. -/
def sampleWeightCheck (m : ℕ) (sw : NpArr) : Except String (List ℚ) :=
  if (atleast1d sw).ndim > 1 then
    .error "Sample weights must be 1D array or scalar"
  else if sw.ndim = 0 then
    .ok (List.replicate m (sw.data.headD 0))
  else if sw.shape.headD 0 ≠ m then
    .error ("Found array with " ++ toString (sw.shape.headD 0) ++
      " sample(s) while " ++ toString m ++ " samples were expected.")
  else
    .ok sw.data

/-- The `alpha` constructor argument: the sentinel string `'auto'` or an
explicit numeric value. -/
inductive AlphaArg where
  | auto
  | num (a : ℚ)
deriving DecidableEq, Inhabited

/-- The hyperparameters handed to the delegated (external) Lasso solver. -/
structure LassoParams where
  alpha : ℚ
  fitIntercept : Bool
  maxIter : ℕ
  tol : ℚ
  positive : Bool
  selection : String
  randomState : Option ℕ
deriving DecidableEq

/-- Constructor parameters of `DebiasedLasso` (those the embedding tracks). -/
structure DLCfg where
  alpha : AlphaArg
  fitIntercept : Bool
  maxIter : ℕ
  tol : ℚ
  positive : Bool
  selection : String
  randomState : Option ℕ
deriving DecidableEq

/-- A sequence of `(train_indices, test_indices)` splits, as produced by a
cross-validation splitter. -/
abbrev Splits := List (List ℕ × List ℕ)

/-- Which splitter `_weighted_check_cv` settled on. -/
inductive CvResult where
  | wkfold (k : ℕ)
  | wskfold (k : ℕ)
  | wrappedIter (id : ℕ)
  | wrappedSplits (l : Splits)
  | passthrough (id : ℕ)
deriving DecidableEq

/-- The environment of external collaborators (spec section 1: the coordinate
descent solver, the cross-validated solver, the fold splitter, and numeric
library primitives).  Each is an arbitrary deterministic function. -/
structure Ext where
  /-- `sklearn.linear_model.Lasso(params).fit(X, y)` on an `m × n` design:
  returns `(coef_, intercept_)`. -/
  lassoFit : LassoParams → ℕ → ℕ → Mat → Vec → Vec × ℚ
  /-- `sklearn.linear_model.LassoCV(alphas=…, cv=splits, fit_intercept=…)`
  fitted on an `m × n` design: returns `(alpha_, coef_, intercept_)`. -/
  lassoCVFit : Splits → Option (List ℚ) → Bool → ℕ → ℕ → Mat → Vec → ℚ × Vec × ℚ
  /-- `sklearn.linear_model.MultiTaskLassoCV` fitted on an `m × n` design with
  `T` targets: returns `(alpha_, coef_, intercept_)`. -/
  mtlassoCVFit : Splits → Option (List ℚ) → Bool → ℕ → ℕ → ℕ → Mat → Mat → ℚ × Mat × Vec
  /-- `splitter.split(X, y, sample_weight=…)` of the chosen splitter. -/
  split : CvResult → ℕ → ℕ → Mat → Vec → Option Vec → Splits
  /-- `splitter.split(X, Y, sample_weight=…)` for a multi-task target. -/
  splitMT : CvResult → ℕ → ℕ → ℕ → Mat → Mat → Option Vec → Splits
  /-- `np.sqrt` on nonnegative rationals. -/
  sqrtQ : ℚ → ℚ
  /-- `sklearn.utils.multiclass.type_of_target`. -/
  typeOfTarget : Vec → String

/-- The per-feature offset computed by `_preprocess_data`: the (weighted)
column mean when an intercept is fit, `0` otherwise. -/
def xOffset (fitI : Bool) (m : ℕ) (w : Option Vec) (X : Mat) : Vec :=
  fun j => if fitI then wavg m w (fun s => X s j) else 0

/-- The target offset computed by `_preprocess_data`. -/
def yOffsetQ (fitI : Bool) (m : ℕ) (w : Option Vec) (y : Vec) : ℚ :=
  if fitI then wavg m w y else 0

/-- The centered design matrix returned by `_preprocess_data`. -/
def xCentered (fitI : Bool) (m : ℕ) (w : Option Vec) (X : Mat) : Mat :=
  fun s j => X s j - xOffset fitI m w X j

/-- The centered target returned by `_preprocess_data`. -/
def yCentered (fitI : Bool) (m : ℕ) (w : Option Vec) (y : Vec) : Vec :=
  fun s => y s - yOffsetQ fitI m w y

/-- `np.sqrt` of the normalized weights. -/
def sqw (E : Ext) (m : ℕ) (w : Vec) : Vec := fun s => E.sqrtQ (normW m w s)

/-- The reweighted design `np.matmul(np.diag(sqrt_weights), X)` (rows of the
centered design scaled by the square roots of the normalized weights). -/
def xWeighted (E : Ext) (fitI : Bool) (m : ℕ) (X : Mat) (w : Vec) : Mat :=
  fun s j => sqw E m w s * xCentered fitI m (some w) X s j

/-- The reweighted target `np.matmul(np.diag(sqrt_weights), y)`. -/
def yWeighted (E : Ext) (fitI : Bool) (m : ℕ) (y : Vec) (w : Vec) : Vec :=
  fun s => sqw E m w s * yCentered fitI m (some w) y s

/-- The numeric core of `_fit_weighted_linear_model` (after sample-weight
validation): with weights, center, reweight by square-root normalized weights,
delegate to the unweighted solver with intercept fitting disabled, and
recompute the intercept analytically from the offsets; without weights,
delegate directly. -/
def fitWLMCore (E : Ext) (p : LassoParams) (m n : ℕ) (X : Mat) (y : Vec)
    (w : Option Vec) : Vec × ℚ :=
  match w with
  | none => E.lassoFit p m n X y
  | some w =>
    if p.fitIntercept then
      let c := (E.lassoFit { p with fitIntercept := false } m n
        (xWeighted E p.fitIntercept m X w) (yWeighted E p.fitIntercept m y w)).1
      (c, yOffsetQ p.fitIntercept m (some w) y - dot n (xOffset p.fitIntercept m (some w) X) c)
    else
      E.lassoFit p m n (xWeighted E p.fitIntercept m X w) (yWeighted E p.fitIntercept m y w)

/-- `_fit_weighted_linear_model`: validate the sample weights, then run the
numeric core.  On a validation error no fitting is performed. -/
def fitWLM (E : Ext) (p : LassoParams) (m n : ℕ) (X : Mat) (y : Vec)
    (sw : Option NpArr) : Except String (Vec × ℚ) :=
  match sw with
  | none => .ok (fitWLMCore E p m n X y none)
  | some a =>
    match sampleWeightCheck m a with
    | .error e => .error e
    | .ok l => .ok (fitWLMCore E p m n X y (some (fun s => l.getD s 0)))

/-- The reduced design `X[:, list(range(i)) + list(range(i+1, n_features))]`:
all columns except `i`. -/
def reducedX (X : Mat) (i : ℕ) : Mat :=
  fun s j => if j < i then X s j else X s (j + 1)

/-- Column `i` of the design matrix, the nodewise regression target. -/
def colX (X : Mat) (i : ℕ) : Vec := fun s => X s i

/-- The parameters of the local `WeightedLasso` built inside `_get_theta_hat`:
`alpha`, `max_iter` and `tol` are inherited from the parent, the intercept is
disabled, and the remaining constructor arguments take their defaults. -/
def nodewiseParams (eff : ℚ) (maxIter : ℕ) (tol : ℚ) : LassoParams :=
  ⟨eff, false, maxIter, tol, false, "cyclic", none⟩

/-- The local nodewise `WeightedLasso(...).fit(X_reduced, y, sample_weight)`. -/
def nodewiseFit (E : Ext) (eff : ℚ) (maxIter : ℕ) (tol : ℚ) (m n : ℕ)
    (X : Mat) (w : Option Vec) (i : ℕ) : Vec × ℚ :=
  fitWLMCore E (nodewiseParams eff maxIter tol) m (n - 1) (reducedX X i) (colX X i) w

/-- `local_wlasso.predict(X_reduced)`. -/
def nodewisePred (E : Ext) (eff : ℚ) (maxIter : ℕ) (tol : ℚ) (m n : ℕ)
    (X : Mat) (w : Option Vec) (i : ℕ) : Vec :=
  fun s => dot (n - 1) (fun j => reducedX X i s j) (nodewiseFit E eff maxIter tol m n X w i).1
    + (nodewiseFit E eff maxIter tol m n X w i).2

/-- `tausq[i] = np.dot(y - local_wlasso.predict(X_reduced), y_weighted)` with
`y_weighted = y * sample_weight / np.sum(sample_weight)` (or `y / n_samples`
when unweighted). -/
def nodewiseTausq (E : Ext) (eff : ℚ) (maxIter : ℕ) (tol : ℚ) (m n : ℕ)
    (X : Mat) (w : Option Vec) (i : ℕ) : ℚ :=
  dot m (fun s => colX X i s - nodewisePred E eff maxIter tol m n X w i s)
    (scaledVec m w (colX X i))

/-- Numpy row-slice assignment `A[i][lo:hi] = v`: entries of row `i` with
column in `[lo, hi)` are replaced. -/
def setRowSlice (A : Mat) (i lo hi : ℕ) (v : ℕ → ℚ) : Mat :=
  fun r c => if r = i ∧ lo ≤ c ∧ c < hi then v c else A r c

/-- One iteration of the `C_hat` loop for `i ≥ 1`:
`C_hat[i][:i] = -coefs[i][:i]` then `C_hat[i][i+1:] = -coefs[i][i:]`. -/
def cHatStep (coefs : ℕ → Vec) (n : ℕ) (A : Mat) (i : ℕ) : Mat :=
  setRowSlice (setRowSlice A i 0 i (fun c => -(coefs i c)))
    i (i + 1) n (fun c => -(coefs i (c - 1)))

/-- `C_hat` before the loop: the identity, with `C_hat[0][1:] = -coefs[0]`. -/
def cHatInit (coefs : ℕ → Vec) (n : ℕ) : Mat :=
  setRowSlice (diagMat (fun _ => 1)) 0 1 n (fun c => -(coefs 0 (c - 1)))

/-- The `C_hat` matrix assembled by `_get_theta_hat`. -/
def cHat (coefs : ℕ → Vec) (n : ℕ) : Mat :=
  (List.range' 1 (n - 1)).foldl (cHatStep coefs n) (cHatInit coefs n)

/-- `_get_theta_hat`: run a no-intercept nodewise weighted Lasso per feature,
collect residual variances `tausq`, assemble `C_hat`, and return
`np.matmul(np.diag(1 / tausq), C_hat)`. -/
def getThetaHat (E : Ext) (eff : ℚ) (maxIter : ℕ) (tol : ℚ) (m n : ℕ)
    (X : Mat) (w : Option Vec) : Mat :=
  matMul n (diagMat (fun i => 1 / nodewiseTausq E eff maxIter tol m n X w i))
    (cHat (fun i => (nodewiseFit E eff maxIter tol m n X w i).1) n)

/-- The `cv` argument of `_weighted_check_cv`: Python `None`, the `'warn'`
sentinel string, an integer, an object exposing `split`, a non-string
iterable, some other string, an unrecognized object (carrying its `repr`),
or a materialized split iterator (the value temporarily stored in `self.cv`
by the CV estimators' `fit`). -/
inductive CvArg where
  | pynone
  | warnSentinel
  | intArg (k : ℕ)
  | splitterObj (id : ℕ)
  | iterableObj (id : ℕ)
  | strArg (s : String)
  | otherObj (r : String)
  | splitsVal (l : Splits)
deriving DecidableEq

/-- Python `repr` of a cv argument, as interpolated into the error message. -/
def cvRepr : CvArg → String
  | .pynone => "None"
  | .warnSentinel => "warn"
  | .intArg k => toString k
  | .splitterObj id => "splitter object " ++ toString id
  | .iterableObj id => "iterable object " ++ toString id
  | .strArg s => s
  | .otherObj r => r
  | .splitsVal _ => "generator"

/-- `hasattr(cv, 'split')`. -/
def cvHasSplit : CvArg → Bool
  | .splitterObj _ => true
  | _ => false

/-- `isinstance(cv, str)`. -/
def cvIsStr : CvArg → Bool
  | .warnSentinel => true
  | .strArg _ => true
  | _ => false

/-- `isinstance(cv, Iterable)`. -/
def cvIsIterable : CvArg → Bool
  | .iterableObj _ => true
  | .strArg _ => true
  | .warnSentinel => true
  | .splitsVal _ => true
  | _ => false

/-- `isinstance(cv, numbers.Integral)`. -/
def cvIsIntegral : CvArg → Bool
  | .intArg _ => true
  | _ => false

/-- The sklearn `CV_WARNING` future warning (emitted when cv was not set). -/
def cvWarning : String :=
  "You should specify a value for cv instead of relying on the default value."

/-- The `ValueError` message of `_weighted_check_cv`, naming the received
value. -/
def cvUnsupportedMsg (r : String) : String :=
  "Expected cv as an integer, cross-validation object (from " ++
    "sklearn.model_selection) or an iterable. Got " ++ r ++ "."

/-- Whether the stratified branch is taken: `classifier` and a present target
whose `type_of_target` is `'binary'` or `'multiclass'`. -/
def stratCond (tot : Vec → String) (y : Option Vec) (classifier : Bool) : Bool :=
  classifier && (match y with
    | some yy => decide (tot yy = "binary" ∨ tot yy = "multiclass")
    | none => false)

/-- `_weighted_check_cv`: `None`/`'warn'` warn and fall back to 3 folds;
integers yield a weighted (possibly stratified) K-fold; objects exposing
`split` pass through; non-string iterables are wrapped; everything else is a
`ValueError` naming the received value.  Returns the emitted warnings
alongside the selected splitter. -/
def weightedCheckCv (tot : Vec → String) (cv : CvArg) (y : Option Vec)
    (classifier : Bool) : Except String (List String × CvResult) :=
  let (warns, cv) :=
    if cv = CvArg.pynone ∨ cv = CvArg.warnSentinel then ([cvWarning], CvArg.intArg 3)
    else ([], cv)
  if cvIsIntegral cv then
    match cv with
    | .intArg k =>
      if stratCond tot y classifier then .ok (warns, .wskfold k)
      else .ok (warns, .wkfold k)
    | _ => .error "unreachable"
  else if ¬ cvHasSplit cv ∨ cvIsStr cv then
    if ¬ cvIsIterable cv ∨ cvIsStr cv then
      .error (cvUnsupportedMsg (cvRepr cv))
    else
      match cv with
      | .iterableObj id => .ok (warns, .wrappedIter id)
      | .splitsVal l => .ok (warns, .wrappedSplits l)
      | _ => .error "unreachable"
  else
    match cv with
    | .splitterObj id => .ok (warns, .passthrough id)
    | _ => .error "unreachable"

/-- State of a `WeightedLassoCV` estimator: the configuration read by `fit`
plus the fitted attributes. -/
structure WLCVState where
  cv : CvArg
  alphas : Option (List ℚ)
  fitIntercept : Bool
  alphaSel : Option ℚ
  coef : Vec
  intercept : ℚ

/-- `WeightedLassoCV.fit`: build the weighted splitter from `self.cv`, stash
the split iterator into `self.cv`, run `_fit_weighted_linear_model` with the
external `LassoCV` as the base solver, and restore `self.cv` to its saved
value. -/
def wlcvFitCore (E : Ext) (st : WLCVState) (m n : ℕ) (X : Mat) (y : Vec)
    (w : Option Vec) : Except String (List String × WLCVState) :=
  match weightedCheckCv E.typeOfTarget st.cv none false with
  | .error e => .error e
  | .ok (warns, cvr) =>
    let splits := E.split cvr m n X y w
    let stTmp := { st with cv := CvArg.splitsVal splits }
    let fitted :=
      match w with
      | none =>
        let (a, c, b) := E.lassoCVFit splits stTmp.alphas stTmp.fitIntercept m n X y
        { stTmp with alphaSel := some a, coef := c, intercept := b }
      | some w =>
        if stTmp.fitIntercept then
          let (a, c, _) := E.lassoCVFit splits stTmp.alphas false m n
            (xWeighted E stTmp.fitIntercept m X w) (yWeighted E stTmp.fitIntercept m y w)
          let b := yOffsetQ stTmp.fitIntercept m (some w) y -
            dot n (xOffset stTmp.fitIntercept m (some w) X) c
          { stTmp with alphaSel := some a, coef := c, intercept := b }
        else
          let (a, c, b) := E.lassoCVFit splits stTmp.alphas stTmp.fitIntercept m n
            (xWeighted E stTmp.fitIntercept m X w) (yWeighted E stTmp.fitIntercept m y w)
          { stTmp with alphaSel := some a, coef := c, intercept := b }
    .ok (warns, { fitted with cv := st.cv })

/-- State of a `WeightedMultiTaskLassoCV` estimator. -/
structure WMTLCVState where
  cv : CvArg
  alphas : Option (List ℚ)
  fitIntercept : Bool
  alphaSel : Option ℚ
  coefM : Mat
  interceptV : Vec

/-- Per-target offsets of a multi-task target matrix. -/
def yOffsetsMT (fitI : Bool) (m : ℕ) (w : Option Vec) (Y : Mat) : Vec :=
  fun t => if fitI then wavg m w (fun s => Y s t) else 0

/-- Centered multi-task target. -/
def yCenteredMT (fitI : Bool) (m : ℕ) (w : Option Vec) (Y : Mat) : Mat :=
  fun s t => Y s t - yOffsetsMT fitI m w Y t

/-- Reweighted multi-task target. -/
def yWeightedMT (E : Ext) (fitI : Bool) (m : ℕ) (Y : Mat) (w : Vec) : Mat :=
  fun s t => sqw E m w s * yCenteredMT fitI m (some w) Y s t

/-- `WeightedMultiTaskLassoCV.fit`: identical control flow to
`WeightedLassoCV.fit` with the multi-task external solver. -/
def wmtlcvFitCore (E : Ext) (st : WMTLCVState) (m n T : ℕ) (X : Mat) (Y : Mat)
    (w : Option Vec) : Except String (List String × WMTLCVState) :=
  match weightedCheckCv E.typeOfTarget st.cv none false with
  | .error e => .error e
  | .ok (warns, cvr) =>
    let splits := E.splitMT cvr m n T X Y w
    let stTmp := { st with cv := CvArg.splitsVal splits }
    let fitted :=
      match w with
      | none =>
        let (a, c, b) := E.mtlassoCVFit splits stTmp.alphas stTmp.fitIntercept m n T X Y
        { stTmp with alphaSel := some a, coefM := c, interceptV := b }
      | some w =>
        if stTmp.fitIntercept then
          let (a, c, _) := E.mtlassoCVFit splits stTmp.alphas false m n T
            (xWeighted E stTmp.fitIntercept m X w) (yWeightedMT E stTmp.fitIntercept m Y w)
          let b : Vec := fun t => yOffsetsMT stTmp.fitIntercept m (some w) Y t -
            dot n (xOffset stTmp.fitIntercept m (some w) X) (fun j => c t j)
          { stTmp with alphaSel := some a, coefM := c, interceptV := b }
        else
          let (a, c, b) := E.mtlassoCVFit splits stTmp.alphas stTmp.fitIntercept m n T
            (xWeighted E stTmp.fitIntercept m X w) (yWeightedMT E stTmp.fitIntercept m Y w)
          { stTmp with alphaSel := some a, coefM := c, interceptV := b }
    .ok (warns, { fitted with cv := st.cv })

/-- The fixed alpha grid of `DebiasedLasso.fit`. -/
def alphaGrid : List ℚ := [0.01, 0.02, 0.03, 0.06, 0.1, 0.2, 0.3, 0.5, 0.8, 1]

/-- The calibration warning emitted when a manual alpha is supplied. -/
def calibrationWarning : String :=
  "Setting a suboptimal alpha can lead to miscalibrated confidence intervals. " ++
    "We recommend setting alpha=auto for optimality."

/-- `DebiasedLasso._get_optimal_alpha`: fit a `WeightedLassoCV` with the given
alpha grid and `cv=5` on the flattened target and return its `alpha_`. -/
def getOptimalAlpha (E : Ext) (grid : List ℚ) (fitI : Bool) (m n : ℕ)
    (X : Mat) (y : Vec) (w : Option Vec) : ℚ :=
  match wlcvFitCore E ⟨CvArg.intArg 5, some grid, fitI, none, fun _ => 0, 0⟩ m n X y w with
  | .ok (_, r) => r.alphaSel.getD 0
  | .error _ => 0

/-- The `LassoParams` of the base weighted fit inside `DebiasedLasso.fit`,
with the effective (numeric) alpha substituted. -/
def dlParams (eff : ℚ) (cfg : DLCfg) : LassoParams :=
  ⟨eff, cfg.fitIntercept, cfg.maxIter, cfg.tol, cfg.positive, cfg.selection, cfg.randomState⟩

/-- The base `WeightedLasso` fit of `DebiasedLasso.fit` (`super().fit`). -/
def dlBase (E : Ext) (eff : ℚ) (cfg : DLCfg) (m n : ℕ) (X : Mat) (y : Vec)
    (w : Option Vec) : Vec × ℚ :=
  fitWLMCore E (dlParams eff cfg) m n X y w

/-- `y_pred = self.predict(X) - self.intercept_` evaluated on the re-centered
design (the code reassigns `X` to its centered version before this point). -/
def dlYPred (E : Ext) (eff : ℚ) (cfg : DLCfg) (m n : ℕ) (X : Mat) (y : Vec)
    (w : Option Vec) : Vec :=
  fun s => (dot n (fun j => xCentered cfg.fitIntercept m w X s j)
      (dlBase E eff cfg m n X y w).1 + (dlBase E eff cfg m n X y w).2)
    - (dlBase E eff cfg m n X y w).2

/-- Number of nonzero entries among the first `n` coefficients
(`np.count_nonzero`). -/
def nnzCoef (n : ℕ) (c : Vec) : ℕ :=
  ((Finset.range n).filter (fun j => c j ≠ 0)).card

/-- The uncorrected (naive) weighted mean of squared residuals
`np.average((y - y_pred)**2, weights=sample_weight)`, on centered data. -/
def naiveMSR (E : Ext) (eff : ℚ) (cfg : DLCfg) (m n : ℕ) (X : Mat) (y : Vec)
    (w : Option Vec) : ℚ :=
  wavg m w (fun s =>
    (yCentered cfg.fitIntercept m w y s - dlYPred E eff cfg m n X y w s) ^ 2)

/-- `self._error_variance`: the naive mean squared residual divided by the
degrees-of-freedom correction `1 - nnz(coef) / n_samples`. -/
def dlErrorVariance (E : Ext) (eff : ℚ) (cfg : DLCfg) (m n : ℕ) (X : Mat)
    (y : Vec) (w : Option Vec) : ℚ :=
  naiveMSR E eff cfg m n X y w /
    (1 - (nnzCoef n (dlBase E eff cfg m n X y w).1 : ℚ) / m)

/-- `self._mean_error_variance = self._error_variance / n_samples`. -/
def dlMeanErrorVariance (E : Ext) (eff : ℚ) (cfg : DLCfg) (m n : ℕ) (X : Mat)
    (y : Vec) (w : Option Vec) : ℚ :=
  dlErrorVariance E eff cfg m n X y w / m

/-- `self._theta_hat`, computed on the centered design. -/
def dlThetaHat (E : Ext) (eff : ℚ) (cfg : DLCfg) (m n : ℕ) (X : Mat) (y : Vec)
    (w : Option Vec) : Mat :=
  getThetaHat E eff cfg.maxIter cfg.tol m n (xCentered cfg.fitIntercept m w X) w

/-- `_get_unscaled_coef_var`: `theta_hat @ Σ @ theta_hat.T / n_samples` where
`Σ` is the weighted (or uniform) empirical second-moment matrix of its `X`
argument. -/
def unscaledCoefVar (m n : ℕ) (X : Mat) (th : Mat) (w : Option Vec) : Mat :=
  let sigma : Mat :=
    match w with
    | some w => matMul m (matMul m (transposeM X) (diagMat (fun s => w s / vsum m w))) X
    | none => fun a b => matMul m (transposeM X) X a b / m
  fun i j => matMul n (matMul n th sigma) (transposeM th) i j / m

/-- `self._coef_variance = unscaled_coef_var * error_variance`. -/
def dlCoefVariance (E : Ext) (eff : ℚ) (cfg : DLCfg) (m n : ℕ) (X : Mat)
    (y : Vec) (w : Option Vec) : Mat :=
  fun i j => unscaledCoefVar m n (xCentered cfg.fitIntercept m w X)
      (dlThetaHat E eff cfg m n X y w) w i j * dlErrorVariance E eff cfg m n X y w

/-- `_get_coef_correction`: `theta_hat @ X.T @ (residuals scaled by normalized
weights)`, on centered data. -/
def dlCoefCorrection (E : Ext) (eff : ℚ) (cfg : DLCfg) (m n : ℕ) (X : Mat)
    (y : Vec) (w : Option Vec) : Vec :=
  fun i => dot m
    (fun s => dot n (fun j => dlThetaHat E eff cfg m n X y w i j)
      (fun j => xCentered cfg.fitIntercept m w X s j))
    (scaledVec m w (fun s =>
      yCentered cfg.fitIntercept m w y s - dlYPred E eff cfg m n X y w s))

/-- `self.coef_` after the bias correction. -/
def dlCoefFinal (E : Ext) (eff : ℚ) (cfg : DLCfg) (m n : ℕ) (X : Mat) (y : Vec)
    (w : Option Vec) : Vec :=
  fun j => (dlBase E eff cfg m n X y w).1 j + dlCoefCorrection E eff cfg m n X y w j

/-- `self.coef_std_err_ = np.sqrt(np.diag(coef_variance))`. -/
def dlCoefStdErr (E : Ext) (eff : ℚ) (cfg : DLCfg) (m n : ℕ) (X : Mat) (y : Vec)
    (w : Option Vec) : Vec :=
  fun j => E.sqrtQ (dlCoefVariance E eff cfg m n X y w j j)

/-- `self.intercept_std_err_`: the quadratic form of the offsets through the
coefficient covariance plus the mean error variance (under the square root),
or `0` without an intercept. -/
def dlInterceptStdErr (E : Ext) (eff : ℚ) (cfg : DLCfg) (m n : ℕ) (X : Mat)
    (y : Vec) (w : Option Vec) : ℚ :=
  if cfg.fitIntercept then
    E.sqrtQ (dot n (xOffset cfg.fitIntercept m w X)
        (fun i => dot n (fun j => dlCoefVariance E eff cfg m n X y w i j)
          (xOffset cfg.fitIntercept m w X))
      + dlMeanErrorVariance E eff cfg m n X y w)
  else 0

/-- `self.intercept_` after `_set_intercept(X_offset, y_offset, X_scale)`,
using the corrected coefficients. -/
def dlInterceptFinal (E : Ext) (eff : ℚ) (cfg : DLCfg) (m n : ℕ) (X : Mat)
    (y : Vec) (w : Option Vec) : ℚ :=
  if cfg.fitIntercept then
    yOffsetQ cfg.fitIntercept m w y -
      dot n (xOffset cfg.fitIntercept m w X) (dlCoefFinal E eff cfg m n X y w)
  else 0

/-- The fitted attributes of a `DebiasedLasso` after `fit` returns. -/
structure DLFitted where
  alpha : AlphaArg
  selectedAlpha : Option ℚ
  coef : Vec
  intercept : ℚ
  coefStdErr : Vec
  interceptStdErr : ℚ
  errorVariance : ℚ
  meanErrorVariance : ℚ
  thetaHat : Mat
  coefVariance : Mat
  xOffsetA : Vec
  fitIntercept : Bool
  warnings : List String
deriving Inhabited

/-- All numeric stages of `DebiasedLasso.fit` for a given effective alpha
(the alpha bookkeeping of the sentinel is layered on top in `dlFitCore`). -/
def dlFitStages (E : Ext) (eff : ℚ) (cfg : DLCfg) (m n : ℕ) (X : Mat) (y : Vec)
    (w : Option Vec) : DLFitted where
  alpha := cfg.alpha
  selectedAlpha := none
  coef := dlCoefFinal E eff cfg m n X y w
  intercept := dlInterceptFinal E eff cfg m n X y w
  coefStdErr := dlCoefStdErr E eff cfg m n X y w
  interceptStdErr := dlInterceptStdErr E eff cfg m n X y w
  errorVariance := dlErrorVariance E eff cfg m n X y w
  meanErrorVariance := dlMeanErrorVariance E eff cfg m n X y w
  thetaHat := dlThetaHat E eff cfg m n X y w
  coefVariance := dlCoefVariance E eff cfg m n X y w
  xOffsetA := xOffset cfg.fitIntercept m w X
  fitIntercept := cfg.fitIntercept
  warnings := []

/-- `DebiasedLasso.fit`: with the `'auto'` sentinel, select the effective
alpha by weighted 5-fold cross-validation over the fixed grid, record it in
`selected_alpha_`, run the numeric stages, and restore the sentinel; with an
explicit numeric alpha, emit the calibration warning and proceed with the
given value. -/
def dlFitCore (E : Ext) (cfg : DLCfg) (m n : ℕ) (X : Mat) (y : Vec)
    (w : Option Vec) : DLFitted :=
  match cfg.alpha with
  | .auto =>
    let a := getOptimalAlpha E alphaGrid cfg.fitIntercept m n X y w
    { dlFitStages E a cfg m n X y w with
        alpha := AlphaArg.auto, selectedAlpha := some a, warnings := [] }
  | .num a =>
    { dlFitStages E a cfg m n X y w with
        alpha := AlphaArg.num a, selectedAlpha := none,
        warnings := [calibrationWarning] }

/-- The effective numeric alpha `DebiasedLasso.fit` fits with. -/
def dlEffAlpha (E : Ext) (cfg : DLCfg) (m n : ℕ) (X : Mat) (y : Vec)
    (w : Option Vec) : ℚ :=
  match cfg.alpha with
  | .auto => getOptimalAlpha E alphaGrid cfg.fitIntercept m n X y w
  | .num a => a

/-- Constructor arguments of `MultiOutputDebiasedLasso` (those the embedding
tracks). -/
structure MODLParams where
  alpha : AlphaArg
  fitIntercept : Bool
  maxIter : ℕ
  tol : ℚ
  positive : Bool
  selection : String
  randomState : Option ℕ
deriving DecidableEq

/-- The per-output `DebiasedLasso` template built by
`MultiOutputDebiasedLasso.__init__`: `alpha`, `fit_intercept`, `max_iter` and
`tol` come from the constructor arguments, while `positive`, `random_state`
and `selection` are passed as the literals `False`, `None` and `'cyclic'`. -/
def modlTemplate (p : MODLParams) : DLCfg :=
  ⟨p.alpha, p.fitIntercept, p.maxIter, p.tol, false, "cyclic", none⟩

/-- A Python attribute value as produced by `_set_attribute`: a stacked 1-D
array, a stacked 2-D array, a scalar default, or `None`. -/
inductive PyVal where
  | arr1 (v : List ℚ)
  | arr2 (v : List (List ℚ))
  | scal (c : ℚ)
  | pynoneV
deriving DecidableEq

/-- The fitted state of a `MultiOutputDebiasedLasso`. -/
structure MODLFitted where
  estimators : List DLFitted
  coefM : PyVal
  interceptM : PyVal
  coefStdErrM : PyVal
  interceptStdErrM : PyVal

/-- `MultiOutputDebiasedLasso.fit`: fit one `DebiasedLasso` per target column,
then gather attributes.  `coef_` and `coef_std_err_` stack the per-target
vectors; `intercept_` is first set from the per-target intercepts (or the
`0.0` default without an intercept) and then overwritten by the second
`_set_attribute("intercept_", condition=(alpha == 'auto'))` call — the stacked
intercepts again under the sentinel, the `None` default otherwise. -/
def modlFit (E : Ext) (p : MODLParams) (m n T : ℕ) (X : Mat) (Y : Mat)
    (w : Option Vec) : MODLFitted :=
  let ests := (List.range T).map (fun t => dlFitCore E (modlTemplate p) m n X (fun s => Y s t) w)
  let est0 := ests.headD default
  let coefM := PyVal.arr2 (ests.map (fun e => (List.range n).map (fun j => e.coef j)))
  let interceptFirst := if est0.fitIntercept then PyVal.arr1 (ests.map (fun e => e.intercept)) else PyVal.scal 0
  let interceptSecond := if est0.alpha = AlphaArg.auto then PyVal.arr1 (ests.map (fun e => e.intercept)) else PyVal.pynoneV
  let _ := interceptFirst
  let coefStdErrM := PyVal.arr2 (ests.map (fun e => (List.range n).map (fun j => e.coefStdErr j)))
  let interceptStdErrM := PyVal.arr1 (ests.map (fun e => e.interceptStdErr))
  ⟨ests, coefM, interceptSecond, coefStdErrM, interceptStdErrM⟩

/-! Concrete environments and inputs used to instantiate the theorems on
small data. -/

/-- A concrete external environment: the Lasso solver returns the all-ones
coefficient vector with zero intercept, the CV solvers select `1/10`, the
splitters return no splits, and the square root is instantiated by the
identity (only its evaluations at concrete points matter). -/
def extC : Ext :=
  ⟨fun _ _ _ _ _ => (fun _ => 1, 0),
   fun _ _ _ _ _ _ _ => (1/10, fun _ => 0, 0),
   fun _ _ _ _ _ _ _ _ => (1/10, fun _ _ => 0, fun _ => 0),
   fun _ _ _ _ _ _ => [],
   fun _ _ _ _ _ _ _ => [],
   fun x => x,
   fun _ => "continuous"⟩

/-- The zero matrix. -/
def matZ : Mat := fun _ _ => 0

/-- The zero vector. -/
def vecZ : Vec := fun _ => 0

/-- The all-ones weight vector. -/
def vecOne : Vec := fun _ => 1

/-- A design matrix whose every column is the sample index. -/
def matLin : Mat := fun s _ => (s : ℚ)

/-- The target `y s = s` (fit exactly by the unit coefficient). -/
def vecLin : Vec := fun s => (s : ℚ)

/-- The target `y s = 2 s` (not fit by the unit coefficient). -/
def vec2 : Vec := fun s => 2 * (s : ℚ)

/-- A two-target matrix. -/
def matY2 : Mat := fun s t => (s : ℚ) + (t : ℚ)

/-- A `DebiasedLasso` configuration with the explicit alpha `1/2`. -/
def cfgHalf : DLCfg := ⟨AlphaArg.num (1/2), true, 1000, 1/10000, false, "cyclic", none⟩

/-- A `DebiasedLasso` configuration with the `'auto'` sentinel. -/
def cfgAuto : DLCfg := ⟨AlphaArg.auto, true, 1000, 1/10000, false, "cyclic", none⟩

/-- `MultiOutputDebiasedLasso` constructor arguments with an explicit numeric
alpha. -/
def pNum : MODLParams := ⟨AlphaArg.num (1/2), true, 1000, 1/10000, false, "cyclic", none⟩

/-- A `WeightedLassoCV` state with `cv=3`. -/
def stWLCV : WLCVState := ⟨CvArg.intArg 3, none, true, none, fun _ => 0, 0⟩

/-- A `WeightedMultiTaskLassoCV` state with `cv=3`. -/
def stWMT : WMTLCVState := ⟨CvArg.intArg 3, none, true, none, fun _ _ => 0, fun _ => 0⟩

/-! ## Theorems -/

/-- C4: for every fit that begins with the `'auto'` sentinel, the returned
`alpha` attribute equals the sentinel again (so a repeated fit re-triggers
selection) and `selected_alpha_` holds the numeric alpha chosen by
cross-validation. -/
theorem C4_alpha_sentinel_restored (E : Ext) (cfg : DLCfg) (m n : ℕ) (X : Mat)
    (y : Vec) (w : Option Vec) (h : cfg.alpha = AlphaArg.auto) :
    (dlFitCore E cfg m n X y w).alpha = AlphaArg.auto ∧
    (dlFitCore E cfg m n X y w).selectedAlpha =
      some (getOptimalAlpha E alphaGrid cfg.fitIntercept m n X y w) := by
  simp [dlFitCore, h]

/-- Witness for C4 at a concrete auto-configured fit. -/
theorem C4_alpha_sentinel_restored_witness :
    cfgAuto.alpha = AlphaArg.auto ∧
    (dlFitCore extC cfgAuto 2 1 matLin vecLin none).alpha = AlphaArg.auto ∧
    (dlFitCore extC cfgAuto 2 1 matLin vecLin none).selectedAlpha =
      some (getOptimalAlpha extC alphaGrid cfgAuto.fitIntercept 2 1 matLin vecLin none) :=
  ⟨rfl, (C4_alpha_sentinel_restored extC cfgAuto 2 1 matLin vecLin none rfl).1,
    (C4_alpha_sentinel_restored extC cfgAuto 2 1 matLin vecLin none rfl).2⟩

/-- C8: an unset cv (`None` or the `'warn'` sentinel) warns and falls back to
3 folds; an integral cv yields a weighted K-fold splitter, stratified when the
classifier flag is set and the target looks categorical; an argument that is
not an integer, exposes no `split`, and is not iterable raises a `ValueError`
naming the received value. -/
theorem C8_weighted_check_cv (tot : Vec → String) (y : Option Vec) (cl : Bool)
    (k : ℕ) (r : String) :
    weightedCheckCv tot CvArg.pynone y cl =
      .ok ([cvWarning], if stratCond tot y cl then CvResult.wskfold 3 else CvResult.wkfold 3)
    ∧ weightedCheckCv tot CvArg.warnSentinel y cl =
      .ok ([cvWarning], if stratCond tot y cl then CvResult.wskfold 3 else CvResult.wkfold 3)
    ∧ weightedCheckCv tot (CvArg.intArg k) y cl =
      .ok ([], if stratCond tot y cl then CvResult.wskfold k else CvResult.wkfold k)
    ∧ weightedCheckCv tot (CvArg.otherObj r) y cl = .error (cvUnsupportedMsg r) := by
  refine ⟨?_, ?_, ?_, ?_⟩ <;>
    · simp only [weightedCheckCv, cvIsIntegral, cvHasSplit, cvIsStr, cvIsIterable, cvRepr]
      by_cases hs : stratCond tot y cl = true <;> simp [hs]

/-- C9: the per-output template built by `MultiOutputDebiasedLasso.__init__`
does not carry the construction-time `positive`, `selection` and
`random_state` options — they are hardcoded to `False`, `'cyclic'` and
`None` — contradicting the class's own parameter documentation. -/
theorem C9_template_drops_options :
    (modlTemplate ⟨AlphaArg.auto, true, 1000, 1/10000, true, "random", some 7⟩).positive = false
    ∧ (modlTemplate ⟨AlphaArg.auto, true, 1000, 1/10000, true, "random", some 7⟩).selection = "cyclic"
    ∧ (modlTemplate ⟨AlphaArg.auto, true, 1000, 1/10000, true, "random", some 7⟩).randomState = none := by
  refine ⟨rfl, rfl, rfl⟩

/-- C5: at an explicit numeric alpha, the second
`_set_attribute("intercept_", condition=(alpha == 'auto'))` call of
`MultiOutputDebiasedLasso.fit` (whose comment says it should set
`selected_alpha_`) overwrites the stacked `intercept_` with the `None`
default, so `intercept_` is not the per-target array the spec promises. -/
theorem C5_intercept_clobbered_on_numeric_alpha :
    (modlFit extC pNum 2 1 2 matLin matY2 none).interceptM = PyVal.pynoneV
    ∧ pNum.alpha ≠ AlphaArg.auto := by
  refine ⟨rfl, by decide⟩

/-- C10: every successful `WeightedLassoCV.fit` or
`WeightedMultiTaskLassoCV.fit` returns a state whose `cv` attribute equals its
pre-fit value (the temporary split iterator stored in `cv` during fitting is
restored). -/
theorem C10_cv_restored :
    (∀ (E : Ext) (st : WLCVState) (m n : ℕ) (X : Mat) (y : Vec) (w : Option Vec)
      (ws : List String) (r : WLCVState),
        wlcvFitCore E st m n X y w = .ok (ws, r) → r.cv = st.cv)
    ∧ (∀ (E : Ext) (st : WMTLCVState) (m n T : ℕ) (X : Mat) (Y : Mat) (w : Option Vec)
      (ws : List String) (r : WMTLCVState),
        wmtlcvFitCore E st m n T X Y w = .ok (ws, r) → r.cv = st.cv) := by
  constructor
  · intro E st m n X y w ws r
    unfold wlcvFitCore
    cases weightedCheckCv E.typeOfTarget st.cv none false with
    | error e => exact fun h => Except.noConfusion h
    | ok p =>
      obtain ⟨ws1, cvr⟩ := p
      intro h
      have h2 := Except.ok.inj h
      rw [Prod.mk.injEq] at h2
      rw [← h2.2]
  · intro E st m n T X Y w ws r
    unfold wmtlcvFitCore
    cases weightedCheckCv E.typeOfTarget st.cv none false with
    | error e => exact fun h => Except.noConfusion h
    | ok p =>
      obtain ⟨ws1, cvr⟩ := p
      intro h
      have h2 := Except.ok.inj h
      rw [Prod.mk.injEq] at h2
      rw [← h2.2]

/-- Witness for C10: two concrete successful fits whose returned `cv` equals
the original integer argument. -/
theorem C10_cv_restored_witness :
    (wlcvFitCore extC stWLCV 1 1 matZ vecZ none).map (fun p => p.2.cv) =
      Except.ok (CvArg.intArg 3)
    ∧ (wmtlcvFitCore extC stWMT 1 1 1 matZ matZ none).map (fun p => p.2.cv) =
      Except.ok (CvArg.intArg 3) := by
  constructor
  · obtain ⟨q, hq⟩ : ∃ q, wlcvFitCore extC stWLCV 1 1 matZ vecZ none = .ok q := ⟨_, rfl⟩
    have hcv := C10_cv_restored.1 extC stWLCV 1 1 matZ vecZ none q.1 q.2 (by rw [hq])
    rw [hq]
    show Except.ok q.2.cv = Except.ok (CvArg.intArg 3)
    rw [hcv]
    rfl
  · obtain ⟨q, hq⟩ : ∃ q, wmtlcvFitCore extC stWMT 1 1 1 matZ matZ none = .ok q := ⟨_, rfl⟩
    have hcv := C10_cv_restored.2 extC stWMT 1 1 1 matZ matZ none q.1 q.2 (by rw [hq])
    rw [hq]
    show Except.ok q.2.cv = Except.ok (CvArg.intArg 3)
    rw [hcv]
    rfl

/-- C7: a sample-weight array of rank 2 or higher is rejected with a
`ValueError` before any fitting; a scalar weight is broadcast to a uniform
per-sample weight and the fit proceeds; a 1-D weight vector whose length
differs from the number of samples is rejected with a `ValueError` before any
fitting. -/
theorem C7_sample_weight_validation (E : Ext) (p : LassoParams) (m n : ℕ)
    (X : Mat) (y : Vec) :
    (∀ sw : NpArr, 2 ≤ sw.ndim →
      fitWLM E p m n X y (some sw) = .error "Sample weights must be 1D array or scalar")
    ∧ (∀ sw : NpArr, sw.ndim = 0 →
      fitWLM E p m n X y (some sw) =
        .ok (fitWLMCore E p m n X y
          (some (fun s => (List.replicate m (sw.data.headD 0)).getD s 0)))
      ∧ ∀ s, s < m → (List.replicate m (sw.data.headD 0)).getD s 0 = sw.data.headD 0)
    ∧ (∀ sw : NpArr, sw.ndim = 1 → sw.shape.headD 0 ≠ m →
      fitWLM E p m n X y (some sw) =
        .error ("Found array with " ++ toString (sw.shape.headD 0) ++
          " sample(s) while " ++ toString m ++ " samples were expected.")) := by
  refine ⟨?_, ?_, ?_⟩
  · intro sw h
    have h0 : ¬ sw.ndim = 0 := by omega
    have hA : atleast1d sw = sw := by simp [atleast1d, h0]
    simp only [fitWLM, sampleWeightCheck, hA]
    rw [if_pos (show sw.ndim > 1 by omega)]
  · intro sw h
    constructor
    · have hsh : sw.shape = [] := List.eq_nil_of_length_eq_zero h
      have hA : ¬ (atleast1d sw).ndim > 1 := by
        simp [atleast1d, NpArr.ndim, hsh]
      simp only [fitWLM, sampleWeightCheck]
      rw [if_neg hA, if_pos h]
    · intro s hs
      have hlen : s < (List.replicate m (sw.data.headD 0)).length := by simp [hs]
      rw [List.getD_eq_getElem _ _ hlen]
      simp
  · intro sw h1 h2
    have h0 : ¬ sw.ndim = 0 := by omega
    have hA : atleast1d sw = sw := by simp [atleast1d, h0]
    simp only [fitWLM, sampleWeightCheck, hA]
    rw [if_neg (show ¬ sw.ndim > 1 by omega), if_neg h0, if_pos h2]

/-- Witness for C7 on concrete rank-2, scalar and length-mismatched weight
arguments. -/
theorem C7_sample_weight_validation_witness :
    fitWLM extC (dlParams (1/2) cfgHalf) 2 1 matLin vecLin (some ⟨[2, 2], [1, 1, 1, 1]⟩) =
      .error "Sample weights must be 1D array or scalar"
    ∧ fitWLM extC (dlParams (1/2) cfgHalf) 2 1 matLin vecLin (some ⟨[], [3]⟩) =
      .ok (fitWLMCore extC (dlParams (1/2) cfgHalf) 2 1 matLin vecLin
        (some (fun s => (List.replicate 2 (3:ℚ)).getD s 0)))
    ∧ fitWLM extC (dlParams (1/2) cfgHalf) 2 1 matLin vecLin (some ⟨[3], [1, 1, 1]⟩) =
      .error ("Found array with " ++ toString 3 ++ " sample(s) while " ++
        toString 2 ++ " samples were expected.") :=
  ⟨(C7_sample_weight_validation extC (dlParams (1/2) cfgHalf) 2 1 matLin vecLin).1
      ⟨[2, 2], [1, 1, 1, 1]⟩ (by decide),
   ((C7_sample_weight_validation extC (dlParams (1/2) cfgHalf) 2 1 matLin vecLin).2.1
      ⟨[], [3]⟩ (by decide)).1,
   (C7_sample_weight_validation extC (dlParams (1/2) cfgHalf) 2 1 matLin vecLin).2.2
      ⟨[3], [1, 1, 1]⟩ (by decide) (by decide)⟩

theorem setRowSlice_ne (A : Mat) (i lo hi : ℕ) (v : ℕ → ℚ) (r c : ℕ)
    (h : r ≠ i) : setRowSlice A i lo hi v r c = A r c := by
  simp [setRowSlice, h]

theorem cHatStep_ne (coefs : ℕ → Vec) (n : ℕ) (A : Mat) (i r c : ℕ)
    (h : r ≠ i) : cHatStep coefs n A i r c = A r c := by
  simp [cHatStep, setRowSlice, h]

theorem cHatStep_self (coefs : ℕ → Vec) (n : ℕ) (A : Mat) (i c : ℕ) :
    cHatStep coefs n A i i c =
      if c < i then -(coefs i c)
      else if i + 1 ≤ c ∧ c < n then -(coefs i (c - 1))
      else A i c := by
  simp only [cHatStep, setRowSlice, true_and, and_imp, eq_self_iff_true]
  split_ifs <;> first | rfl | omega

theorem cHatFold_notMem (coefs : ℕ → Vec) (n : ℕ) :
    ∀ (l : List ℕ) (A : Mat) (r c : ℕ), r ∉ l →
      (l.foldl (cHatStep coefs n) A) r c = A r c := by
  intro l
  induction l with
  | nil => intro A r c _; rfl
  | cons i t ih =>
    intro A r c h
    rw [List.foldl_cons, ih _ r c (fun hm => h (List.mem_cons_of_mem i hm)),
      cHatStep_ne coefs n A i r c (fun he => h (he ▸ List.mem_cons_self i t))]

theorem cHatFold_range' (coefs : ℕ → Vec) (n : ℕ) :
    ∀ (t s : ℕ) (A : Mat) (r c : ℕ), s ≤ r → r < s + t →
      ((List.range' s t).foldl (cHatStep coefs n) A) r c =
        if c < r then -(coefs r c)
        else if r + 1 ≤ c ∧ c < n then -(coefs r (c - 1))
        else A r c := by
  intro t
  induction t with
  | zero => intro s A r c h1 h2; omega
  | succ t ih =>
    intro s A r c h1 h2
    rw [List.range'_succ, List.foldl_cons]
    rcases Nat.eq_or_lt_of_le h1 with hr | hr
    · rw [hr]
      rw [cHatFold_notMem coefs n _ _ r c (by simp only [List.mem_range'_1]; omega),
        cHatStep_self]
    · rw [ih (s + 1) _ r c hr (by omega), cHatStep_ne coefs n A s r c (by omega)]

theorem cHat_entry (coefs : ℕ → Vec) (n r c : ℕ) (hr : r < n) (hc : c < n) :
    cHat coefs n r c =
      if c = r then 1
      else if c < r then -(coefs r c)
      else -(coefs r (c - 1)) := by
  unfold cHat
  rcases Nat.eq_zero_or_pos r with h0 | h0
  · subst h0
    rw [cHatFold_notMem coefs n _ _ 0 c (by simp)]
    simp only [cHatInit, setRowSlice, diagMat, true_and]
    split_ifs <;> first | rfl | omega
  · rw [cHatFold_range' coefs n (n - 1) 1 _ r c (by omega) (by omega)]
    simp only [cHatInit, setRowSlice, diagMat]
    split_ifs <;> first | rfl | omega

theorem matMul_diag (n : ℕ) (d : Vec) (C : Mat) (i j : ℕ) (hi : i < n) :
    matMul n (diagMat d) C i j = d i * C i j := by
  unfold matMul diagMat
  rw [Finset.sum_eq_single i]
  · simp
  · intro b _ hb
    simp [Ne.symm hb]
  · intro h
    exact absurd (Finset.mem_range.2 hi) h

/-- C1: `_get_theta_hat` returns `diag(1/tausq) @ C_hat` where row `i` of
`C_hat` has `1` on the diagonal and the sign-flipped nodewise coefficients
`-c_i` spread across the non-`i` columns, `c_i` comes from the no-intercept
weighted Lasso of column `i` on the remaining columns with the parent's
`alpha`, `max_iter` and `tol`, and `tausq[i]` is the dot product of the
nodewise residual with column `i` scaled by normalized weights (or by
`1/n_samples` when unweighted). -/
theorem C1_theta_hat_structure (E : Ext) (eff : ℚ) (mi : ℕ) (tl : ℚ)
    (m n : ℕ) (X : Mat) (w : Option Vec) (i j : ℕ) (hi : i < n) (hj : j < n) :
    getThetaHat E eff mi tl m n X w i j =
      1 / nodewiseTausq E eff mi tl m n X w i *
        (if j = i then 1
         else if j < i then -((nodewiseFit E eff mi tl m n X w i).1 j)
         else -((nodewiseFit E eff mi tl m n X w i).1 (j - 1)))
    ∧ nodewiseFit E eff mi tl m n X w i =
        fitWLMCore E ⟨eff, false, mi, tl, false, "cyclic", none⟩ m (n - 1)
          (reducedX X i) (colX X i) w
    ∧ nodewiseTausq E eff mi tl m n X w i =
        dot m (fun s => X s i -
            (dot (n - 1) (fun j2 => reducedX X i s j2)
              (nodewiseFit E eff mi tl m n X w i).1
             + (nodewiseFit E eff mi tl m n X w i).2))
          (scaledVec m w (colX X i)) := by
  refine ⟨?_, rfl, rfl⟩
  unfold getThetaHat
  rw [matMul_diag n _ _ i j hi, cHat_entry _ n i j hi hj]

/-- Witness for C1 at a concrete two-feature design. -/
theorem C1_theta_hat_structure_witness :
    ((0:ℕ) < 2 ∧ (1:ℕ) < 2) ∧
    getThetaHat extC (1/2) 1000 (1/10000) 2 2 matLin none 0 1 =
      1 / nodewiseTausq extC (1/2) 1000 (1/10000) 2 2 matLin none 0 *
        (if (1:ℕ) = 0 then 1
         else if (1:ℕ) < 0 then -((nodewiseFit extC (1/2) 1000 (1/10000) 2 2 matLin none 0).1 1)
         else -((nodewiseFit extC (1/2) 1000 (1/10000) 2 2 matLin none 0).1 0)) :=
  ⟨⟨by decide, by decide⟩,
    (C1_theta_hat_structure extC (1/2) 1000 (1/10000) 2 2 matLin none 0 1
      (by decide) (by decide)).1⟩

/-- Counterexample to C2 as stated: a fit with one nonzero coefficient whose
residuals vanish, so the stored `error_variance` equals (rather than strictly
exceeds) the naive weighted mean squared residual. -/
theorem C2_counterexample :
    0 < nnzCoef 1 (dlBase extC (1/2) cfgHalf 2 1 matLin vecLin none).1
    ∧ ¬ naiveMSR extC (1/2) cfgHalf 2 1 matLin vecLin none <
        (dlFitCore extC cfgHalf 2 1 matLin vecLin none).errorVariance := by
  have hmsr : naiveMSR extC (1/2) cfgHalf 2 1 matLin vecLin none = 0 := by
    norm_num [naiveMSR, wavg, yCentered, yOffsetQ, dlYPred, dlBase, fitWLMCore,
      extC, dlParams, cfgHalf, xCentered, xOffset, matLin, vecLin, dot,
      Finset.sum_range_succ, Finset.sum_range_zero]
  constructor
  · norm_num [nnzCoef, dlBase, fitWLMCore, extC, dlParams, cfgHalf]
  · have h0 : (dlFitCore extC cfgHalf 2 1 matLin vecLin none).errorVariance =
        dlErrorVariance extC (1/2) cfgHalf 2 1 matLin vecLin none := rfl
    have herr : (dlFitCore extC cfgHalf 2 1 matLin vecLin none).errorVariance = 0 := by
      rw [h0]
      unfold dlErrorVariance
      rw [hmsr, zero_div]
    rw [hmsr, herr]
    exact lt_irrefl 0

/-- C2 (amended): whenever `0 < nnz(coef) < n_samples` and the naive weighted
mean squared residual is positive, the stored `error_variance` strictly
exceeds it, because it equals that mean divided by `1 - nnz(coef)/n_samples`;
and the stored `error_variance` is exactly this quotient at the effective
alpha. -/
theorem C2_dof_correction (E : Ext) (eff : ℚ) (cfg : DLCfg) (m n : ℕ)
    (X : Mat) (y : Vec) (w : Option Vec)
    (h1 : 0 < nnzCoef n (dlBase E eff cfg m n X y w).1)
    (h2 : nnzCoef n (dlBase E eff cfg m n X y w).1 < m)
    (h3 : 0 < naiveMSR E eff cfg m n X y w) :
    naiveMSR E eff cfg m n X y w < dlErrorVariance E eff cfg m n X y w
    ∧ (dlFitCore E cfg m n X y w).errorVariance =
        dlErrorVariance E (dlEffAlpha E cfg m n X y w) cfg m n X y w
    ∧ dlErrorVariance E eff cfg m n X y w =
        naiveMSR E eff cfg m n X y w /
          (1 - (nnzCoef n (dlBase E eff cfg m n X y w).1 : ℚ) / m) := by
  refine ⟨?_, ?_, rfl⟩
  · have hm : 0 < m := lt_trans h1 h2
    have hmq : (0:ℚ) < m := by exact_mod_cast hm
    have hfrac1 : (nnzCoef n (dlBase E eff cfg m n X y w).1 : ℚ) / m < 1 := by
      rw [div_lt_one hmq]
      exact_mod_cast h2
    have hfrac0 : 0 < (nnzCoef n (dlBase E eff cfg m n X y w).1 : ℚ) / m := by
      apply div_pos _ hmq
      exact_mod_cast h1
    unfold dlErrorVariance
    rw [lt_div_iff₀ (by linarith)]
    nlinarith
  · cases halpha : cfg.alpha with
    | auto => simp [dlFitCore, dlEffAlpha, halpha, dlFitStages]
    | num a => simp [dlFitCore, dlEffAlpha, halpha, dlFitStages]

/-- Witness for C2 on a concrete fit with positive residual mean. -/
theorem C2_dof_correction_witness :
    (0 < nnzCoef 1 (dlBase extC (1/2) cfgHalf 2 1 matLin vec2 none).1
      ∧ nnzCoef 1 (dlBase extC (1/2) cfgHalf 2 1 matLin vec2 none).1 < 2
      ∧ 0 < naiveMSR extC (1/2) cfgHalf 2 1 matLin vec2 none)
    ∧ naiveMSR extC (1/2) cfgHalf 2 1 matLin vec2 none <
        dlErrorVariance extC (1/2) cfgHalf 2 1 matLin vec2 none := by
  have hnnz : nnzCoef 1 (dlBase extC (1/2) cfgHalf 2 1 matLin vec2 none).1 = 1 := by
    norm_num [nnzCoef, dlBase, fitWLMCore, extC, dlParams, cfgHalf]
  have hmsr : naiveMSR extC (1/2) cfgHalf 2 1 matLin vec2 none = 1/4 := by
    norm_num [naiveMSR, wavg, yCentered, yOffsetQ, dlYPred, dlBase, fitWLMCore,
      extC, dlParams, cfgHalf, xCentered, xOffset, matLin, vec2, dot,
      Finset.sum_range_succ, Finset.sum_range_zero]
  refine ⟨⟨by rw [hnnz]; norm_num, by rw [hnnz]; norm_num, by rw [hmsr]; norm_num⟩, ?_⟩
  exact (C2_dof_correction extC (1/2) cfgHalf 2 1 matLin vec2 none
    (by rw [hnnz]; norm_num) (by rw [hnnz]; norm_num) (by rw [hmsr]; norm_num)).1

/-- C6: with the `'auto'` sentinel the effective alpha is chosen by the
weighted-5-fold `WeightedLassoCV` over exactly the fixed grid
`[0.01, 0.02, 0.03, 0.06, 0.1, 0.2, 0.3, 0.5, 0.8, 1]` (an integral `cv=5`
resolves to the weighted K-fold splitter); with an explicit numeric alpha the
calibration warning is emitted and the fit proceeds with the given value. -/
theorem C6_alpha_selection (E : Ext) (cfg : DLCfg) (m n : ℕ) (X : Mat)
    (y : Vec) (w : Option Vec) :
    (cfg.alpha = AlphaArg.auto →
      (dlFitCore E cfg m n X y w).selectedAlpha =
        some (getOptimalAlpha E [0.01, 0.02, 0.03, 0.06, 0.1, 0.2, 0.3, 0.5, 0.8, 1]
          cfg.fitIntercept m n X y w)
      ∧ weightedCheckCv E.typeOfTarget (CvArg.intArg 5) none false =
          .ok ([], CvResult.wkfold 5))
    ∧ (∀ a, cfg.alpha = AlphaArg.num a →
      (dlFitCore E cfg m n X y w).warnings = [calibrationWarning]
      ∧ (dlFitCore E cfg m n X y w).coef = dlCoefFinal E a cfg m n X y w
      ∧ (dlFitCore E cfg m n X y w).intercept = dlInterceptFinal E a cfg m n X y w) := by
  constructor
  · intro h
    constructor
    · simp [dlFitCore, h, alphaGrid]
    · rfl
  · intro a h
    refine ⟨?_, ?_, ?_⟩ <;> simp [dlFitCore, h, dlFitStages]

/-- Witness for C6: the selected alpha of a concrete auto fit, and the
calibration warning of a concrete manual-alpha fit. -/
theorem C6_alpha_selection_witness :
    (dlFitCore extC cfgAuto 2 1 matLin vecLin none).selectedAlpha =
      some (getOptimalAlpha extC [0.01, 0.02, 0.03, 0.06, 0.1, 0.2, 0.3, 0.5, 0.8, 1]
        cfgAuto.fitIntercept 2 1 matLin vecLin none)
    ∧ (dlFitCore extC cfgHalf 2 1 matLin vecLin none).warnings = [calibrationWarning] :=
  ⟨((C6_alpha_selection extC cfgAuto 2 1 matLin vecLin none).1 rfl).1,
   ((C6_alpha_selection extC cfgHalf 2 1 matLin vecLin none).2 (1/2) rfl).1⟩

/-! Scale invariance of all weighted quantities under `w ↦ k • w`. -/

theorem vsum_smul {m : ℕ} {k : ℚ} {w : Vec} :
    vsum m (fun s => k * w s) = k * vsum m w := by
  simp [vsum, Finset.mul_sum]

theorem wavg_smul {m : ℕ} {k : ℚ} {w v : Vec} (hk : k ≠ 0) :
    wavg m (some (fun s => k * w s)) v = wavg m (some w) v := by
  simp only [wavg, vsum_smul]
  rw [show ∑ s in Finset.range m, k * w s * v s = k * ∑ s in Finset.range m, w s * v s by
    rw [Finset.mul_sum]; exact Finset.sum_congr rfl fun s _ => by ring]
  rw [mul_div_mul_left _ _ hk]

theorem normW_smul {m : ℕ} {k : ℚ} {w : Vec} (hk : k ≠ 0) :
    normW m (fun s => k * w s) = normW m w := by
  funext s
  simp only [normW, vsum_smul]
  rw [show (m : ℚ) * (k * w s) = k * ((m : ℚ) * w s) by ring, mul_div_mul_left _ _ hk]

theorem wfrac_smul {m : ℕ} {k : ℚ} {w : Vec} (hk : k ≠ 0) :
    (fun s => k * w s / vsum m (fun s2 => k * w s2)) = fun s => w s / vsum m w := by
  funext s
  rw [vsum_smul, mul_div_mul_left _ _ hk]

theorem scaledVec_smul {m : ℕ} {k : ℚ} {w v : Vec} (hk : k ≠ 0) :
    scaledVec m (some (fun s => k * w s)) v = scaledVec m (some w) v := by
  funext s
  simp only [scaledVec, vsum_smul]
  rw [show v s * (k * w s) = k * (v s * w s) by ring, mul_div_mul_left _ _ hk]

theorem xOffset_smul {fitI : Bool} {m : ℕ} {k : ℚ} {w : Vec} {X : Mat} (hk : k ≠ 0) :
    xOffset fitI m (some (fun s => k * w s)) X = xOffset fitI m (some w) X := by
  funext j
  unfold xOffset
  rw [wavg_smul hk]

theorem yOffsetQ_smul {fitI : Bool} {m : ℕ} {k : ℚ} {w y : Vec} (hk : k ≠ 0) :
    yOffsetQ fitI m (some (fun s => k * w s)) y = yOffsetQ fitI m (some w) y := by
  unfold yOffsetQ
  rw [wavg_smul hk]

theorem xCentered_smul {fitI : Bool} {m : ℕ} {k : ℚ} {w : Vec} {X : Mat} (hk : k ≠ 0) :
    xCentered fitI m (some (fun s => k * w s)) X = xCentered fitI m (some w) X := by
  funext s j
  unfold xCentered
  rw [xOffset_smul hk]

theorem yCentered_smul {fitI : Bool} {m : ℕ} {k : ℚ} {w y : Vec} (hk : k ≠ 0) :
    yCentered fitI m (some (fun s => k * w s)) y = yCentered fitI m (some w) y := by
  funext s
  unfold yCentered
  rw [yOffsetQ_smul hk]

theorem sqw_smul {E : Ext} {m : ℕ} {k : ℚ} {w : Vec} (hk : k ≠ 0) :
    sqw E m (fun s => k * w s) = sqw E m w := by
  funext s
  unfold sqw
  rw [normW_smul hk]

theorem xWeighted_smul {E : Ext} {fitI : Bool} {m : ℕ} {k : ℚ} {w : Vec} {X : Mat}
    (hk : k ≠ 0) :
    xWeighted E fitI m X (fun s => k * w s) = xWeighted E fitI m X w := by
  funext s j
  unfold xWeighted
  rw [sqw_smul hk, xCentered_smul hk]

theorem yWeighted_smul {E : Ext} {fitI : Bool} {m : ℕ} {k : ℚ} {w y : Vec}
    (hk : k ≠ 0) :
    yWeighted E fitI m y (fun s => k * w s) = yWeighted E fitI m y w := by
  funext s
  unfold yWeighted
  rw [sqw_smul hk, yCentered_smul hk]

theorem fitWLMCore_smul {E : Ext} {p : LassoParams} {m n : ℕ} {X : Mat} {y : Vec}
    {k : ℚ} {w : Vec} (hk : k ≠ 0) :
    fitWLMCore E p m n X y (some (fun s => k * w s)) = fitWLMCore E p m n X y (some w) := by
  simp only [fitWLMCore]
  rw [xWeighted_smul hk, yWeighted_smul hk, yOffsetQ_smul hk, xOffset_smul hk]

theorem nodewiseFit_smul {E : Ext} {eff : ℚ} {mi : ℕ} {tl : ℚ} {m n : ℕ} {X : Mat}
    {k : ℚ} {w : Vec} (hk : k ≠ 0) :
    nodewiseFit E eff mi tl m n X (some (fun s => k * w s)) =
      nodewiseFit E eff mi tl m n X (some w) := by
  funext i
  unfold nodewiseFit
  rw [fitWLMCore_smul hk]

theorem nodewisePred_smul {E : Ext} {eff : ℚ} {mi : ℕ} {tl : ℚ} {m n : ℕ} {X : Mat}
    {k : ℚ} {w : Vec} (hk : k ≠ 0) :
    nodewisePred E eff mi tl m n X (some (fun s => k * w s)) =
      nodewisePred E eff mi tl m n X (some w) := by
  funext i s
  unfold nodewisePred
  rw [nodewiseFit_smul hk]

theorem nodewiseTausq_smul {E : Ext} {eff : ℚ} {mi : ℕ} {tl : ℚ} {m n : ℕ} {X : Mat}
    {k : ℚ} {w : Vec} (hk : k ≠ 0) :
    nodewiseTausq E eff mi tl m n X (some (fun s => k * w s)) =
      nodewiseTausq E eff mi tl m n X (some w) := by
  funext i
  unfold nodewiseTausq
  rw [nodewisePred_smul hk, scaledVec_smul hk]

theorem getThetaHat_smul {E : Ext} {eff : ℚ} {mi : ℕ} {tl : ℚ} {m n : ℕ} {X : Mat}
    {k : ℚ} {w : Vec} (hk : k ≠ 0) :
    getThetaHat E eff mi tl m n X (some (fun s => k * w s)) =
      getThetaHat E eff mi tl m n X (some w) := by
  unfold getThetaHat
  rw [nodewiseTausq_smul hk, nodewiseFit_smul hk]

theorem unscaledCoefVar_smul {m n : ℕ} {X th : Mat} {k : ℚ} {w : Vec} (hk : k ≠ 0) :
    unscaledCoefVar m n X th (some (fun s => k * w s)) =
      unscaledCoefVar m n X th (some w) := by
  simp only [unscaledCoefVar]
  rw [wfrac_smul hk]

theorem dlBase_smul {E : Ext} {eff : ℚ} {cfg : DLCfg} {m n : ℕ} {X : Mat} {y : Vec}
    {k : ℚ} {w : Vec} (hk : k ≠ 0) :
    dlBase E eff cfg m n X y (some (fun s => k * w s)) =
      dlBase E eff cfg m n X y (some w) := by
  unfold dlBase
  rw [fitWLMCore_smul hk]

theorem dlYPred_smul {E : Ext} {eff : ℚ} {cfg : DLCfg} {m n : ℕ} {X : Mat} {y : Vec}
    {k : ℚ} {w : Vec} (hk : k ≠ 0) :
    dlYPred E eff cfg m n X y (some (fun s => k * w s)) =
      dlYPred E eff cfg m n X y (some w) := by
  funext s
  unfold dlYPred
  rw [dlBase_smul hk, xCentered_smul hk]

theorem naiveMSR_smul {E : Ext} {eff : ℚ} {cfg : DLCfg} {m n : ℕ} {X : Mat} {y : Vec}
    {k : ℚ} {w : Vec} (hk : k ≠ 0) :
    naiveMSR E eff cfg m n X y (some (fun s => k * w s)) =
      naiveMSR E eff cfg m n X y (some w) := by
  unfold naiveMSR
  rw [yCentered_smul hk, dlYPred_smul hk, wavg_smul hk]

theorem dlErrorVariance_smul {E : Ext} {eff : ℚ} {cfg : DLCfg} {m n : ℕ} {X : Mat}
    {y : Vec} {k : ℚ} {w : Vec} (hk : k ≠ 0) :
    dlErrorVariance E eff cfg m n X y (some (fun s => k * w s)) =
      dlErrorVariance E eff cfg m n X y (some w) := by
  unfold dlErrorVariance
  rw [naiveMSR_smul hk, dlBase_smul hk]

theorem dlMeanErrorVariance_smul {E : Ext} {eff : ℚ} {cfg : DLCfg} {m n : ℕ} {X : Mat}
    {y : Vec} {k : ℚ} {w : Vec} (hk : k ≠ 0) :
    dlMeanErrorVariance E eff cfg m n X y (some (fun s => k * w s)) =
      dlMeanErrorVariance E eff cfg m n X y (some w) := by
  unfold dlMeanErrorVariance
  rw [dlErrorVariance_smul hk]

theorem dlThetaHat_smul {E : Ext} {eff : ℚ} {cfg : DLCfg} {m n : ℕ} {X : Mat}
    {y : Vec} {k : ℚ} {w : Vec} (hk : k ≠ 0) :
    dlThetaHat E eff cfg m n X y (some (fun s => k * w s)) =
      dlThetaHat E eff cfg m n X y (some w) := by
  unfold dlThetaHat
  rw [xCentered_smul hk, getThetaHat_smul hk]

theorem dlCoefVariance_smul {E : Ext} {eff : ℚ} {cfg : DLCfg} {m n : ℕ} {X : Mat}
    {y : Vec} {k : ℚ} {w : Vec} (hk : k ≠ 0) :
    dlCoefVariance E eff cfg m n X y (some (fun s => k * w s)) =
      dlCoefVariance E eff cfg m n X y (some w) := by
  funext i j
  unfold dlCoefVariance
  rw [xCentered_smul hk, dlThetaHat_smul hk, unscaledCoefVar_smul hk,
    dlErrorVariance_smul hk]

theorem dlCoefCorrection_smul {E : Ext} {eff : ℚ} {cfg : DLCfg} {m n : ℕ} {X : Mat}
    {y : Vec} {k : ℚ} {w : Vec} (hk : k ≠ 0) :
    dlCoefCorrection E eff cfg m n X y (some (fun s => k * w s)) =
      dlCoefCorrection E eff cfg m n X y (some w) := by
  funext i
  unfold dlCoefCorrection
  rw [dlThetaHat_smul hk, xCentered_smul hk, yCentered_smul hk, dlYPred_smul hk,
    scaledVec_smul hk]

theorem dlCoefFinal_smul {E : Ext} {eff : ℚ} {cfg : DLCfg} {m n : ℕ} {X : Mat}
    {y : Vec} {k : ℚ} {w : Vec} (hk : k ≠ 0) :
    dlCoefFinal E eff cfg m n X y (some (fun s => k * w s)) =
      dlCoefFinal E eff cfg m n X y (some w) := by
  funext j
  unfold dlCoefFinal
  rw [dlBase_smul hk, dlCoefCorrection_smul hk]

theorem dlCoefStdErr_smul {E : Ext} {eff : ℚ} {cfg : DLCfg} {m n : ℕ} {X : Mat}
    {y : Vec} {k : ℚ} {w : Vec} (hk : k ≠ 0) :
    dlCoefStdErr E eff cfg m n X y (some (fun s => k * w s)) =
      dlCoefStdErr E eff cfg m n X y (some w) := by
  funext j
  unfold dlCoefStdErr
  rw [dlCoefVariance_smul hk]

theorem dlInterceptStdErr_smul {E : Ext} {eff : ℚ} {cfg : DLCfg} {m n : ℕ} {X : Mat}
    {y : Vec} {k : ℚ} {w : Vec} (hk : k ≠ 0) :
    dlInterceptStdErr E eff cfg m n X y (some (fun s => k * w s)) =
      dlInterceptStdErr E eff cfg m n X y (some w) := by
  unfold dlInterceptStdErr
  rw [xOffset_smul hk, dlCoefVariance_smul hk, dlMeanErrorVariance_smul hk]

theorem dlInterceptFinal_smul {E : Ext} {eff : ℚ} {cfg : DLCfg} {m n : ℕ} {X : Mat}
    {y : Vec} {k : ℚ} {w : Vec} (hk : k ≠ 0) :
    dlInterceptFinal E eff cfg m n X y (some (fun s => k * w s)) =
      dlInterceptFinal E eff cfg m n X y (some w) := by
  unfold dlInterceptFinal
  rw [yOffsetQ_smul hk, xOffset_smul hk, dlCoefFinal_smul hk]

theorem dlFitStages_smul {E : Ext} {eff : ℚ} {cfg : DLCfg} {m n : ℕ} {X : Mat}
    {y : Vec} {k : ℚ} {w : Vec} (hk : k ≠ 0) :
    dlFitStages E eff cfg m n X y (some (fun s => k * w s)) =
      dlFitStages E eff cfg m n X y (some w) := by
  unfold dlFitStages
  rw [dlCoefFinal_smul hk, dlInterceptFinal_smul hk, dlCoefStdErr_smul hk,
    dlInterceptStdErr_smul hk, dlErrorVariance_smul hk, dlMeanErrorVariance_smul hk,
    dlThetaHat_smul hk, dlCoefVariance_smul hk, xOffset_smul hk]

/-- C3: re-scaling all (positive) sample weights by a positive constant `k`
leaves every fitted quantity unchanged — the numeric fit stages at any
effective alpha, and in particular the coefficient vector and intercept of a
complete fit at an explicit numeric alpha. -/
theorem C3_weight_scale_invariance (E : Ext) (eff a : ℚ) (cfg : DLCfg)
    (m n : ℕ) (X : Mat) (y : Vec) (k : ℚ) (w : Vec) (hk : 0 < k)
    (hw : ∀ s, s < m → 0 < w s) :
    dlFitStages E eff cfg m n X y (some (fun s => k * w s)) =
      dlFitStages E eff cfg m n X y (some w)
    ∧ dlFitCore E { cfg with alpha := AlphaArg.num a } m n X y (some (fun s => k * w s)) =
        dlFitCore E { cfg with alpha := AlphaArg.num a } m n X y (some w) := by
  have hk' : k ≠ 0 := ne_of_gt hk
  refine ⟨dlFitStages_smul hk', ?_⟩
  simp only [dlFitCore]
  rw [dlFitStages_smul hk']

/-- Witness for C3 with `k = 2` and unit weights on a concrete fit. -/
theorem C3_weight_scale_invariance_witness :
    (0 : ℚ) < 2 ∧
    dlFitCore extC { cfgHalf with alpha := AlphaArg.num (1/2) } 2 1 matLin vec2
        (some (fun s => 2 * vecOne s)) =
      dlFitCore extC { cfgHalf with alpha := AlphaArg.num (1/2) } 2 1 matLin vec2
        (some vecOne) :=
  ⟨by norm_num,
    (C3_weight_scale_invariance extC (1/2) (1/2) cfgHalf 2 1 matLin vec2 2 vecOne
      (by norm_num) (fun s _ => by norm_num [vecOne])).2⟩

end EconML
